import Mathlib

/-!
Verification of the draw-call orchestration and binding-resolution pipeline of
`src/src/libGLESv2/renderer/d3d/RendererD3D.cpp` (ANGLE, `rx::RendererD3D`).

The C++ code is shallowly embedded below.  Pure computations (the
sample-coverage bitmask ladder of `applyState`, the uniform-buffer validation
loop of `applyUniformBuffers`, the serial-array construction of
`getBoundFramebufferTextureSerials`, the `skipDraw` heuristic, the
incomplete-texture cache of `getIncompleteTexture`) are embedded as Lean
functions over the same data.  Collaborator calls whose code is outside this
translation unit (backend device calls, `ProgramBinary`, `gl::State` queries)
are modelled as record fields holding their observed results, and the two
orchestrators `drawArrays` / `drawElements` are embedded as functions from
those results to the returned `gl::Error` together with the ordered trace of
pipeline steps the call invoked.

`GLclampf` / `float` arithmetic of the coverage ladder is modelled exactly
over `ℚ`; all the values the claims exercise (halves and small rationals) are
exactly representable, and the comparisons the ladder performs on them agree
with the `float` evaluation.  Machine `unsigned int` arithmetic is modelled as
`Nat` with explicit reduction modulo `2 ^ 32`.
-/

namespace RendererD3D

/-! ### GL enum constants used by the embedded code -/

def GL_NO_ERROR : Nat := 0
def GL_INVALID_OPERATION : Nat := 0x0502
def GL_OUT_OF_MEMORY : Nat := 0x0505
def GL_POINTS : Nat := 0x0000
def GL_TRIANGLES : Nat := 0x0004
def GL_TRIANGLE_STRIP : Nat := 0x0005
def GL_TRIANGLE_FAN : Nat := 0x0006
def GL_FRONT_AND_BACK : Nat := 0x0408
def GL_TEXTURE_2D : Nat := 0x0DE1
def GL_TEXTURE_CUBE_MAP : Nat := 0x8513
def GL_TEXTURE_3D : Nat := 0x806F
def GL_TEXTURE_2D_ARRAY : Nat := 0x8C1A

/-! ### `gl::Error` -/

/-- Embedding of `gl::Error`: an error code plus the optional human-readable
message passed to the two-argument constructor (empty when absent). -/
structure Error where
  code : Nat
  message : String := ""
deriving DecidableEq

/-- `gl::Error::isError()`: the code is anything other than `GL_NO_ERROR`. -/
def Error.isError (e : Error) : Bool := e.code ≠ GL_NO_ERROR

/-- `gl::Error(GL_NO_ERROR)`, the success result. -/
def noError : Error := { code := GL_NO_ERROR }

/-! ### Sample-coverage mask derivation (`RendererD3D::applyState`, lines 287-317)

The C++ loop body is

    mask <<= 1;
    if ((i + 1) * coverageValue >= threshold) { threshold += 1.0f; mask |= 1; }

on an `unsigned int` accumulator, so one iteration maps an even value `2*m`
(reduced mod `2^32`) to itself or to `2*m + 1`. -/

/-- One iteration of the coverage ladder of `applyState`, on the pair
(mask, threshold).  `mask <<= 1` on `unsigned int` is multiplication by two
modulo `2 ^ 32`; `mask |= 1` on the even shifted value is `+ 1`. -/
def ladderStep (coverageValue : ℚ) (p : Nat × ℚ) (i : Nat) : Nat × ℚ :=
  let shifted := (2 * p.1) % 2 ^ 32
  if ((i : ℚ) + 1) * coverageValue ≥ p.2 then (shifted + 1, p.2 + 1)
  else (shifted, p.2)

/-- The coverage ladder of `applyState`: iterate `ladderStep` for sample
indices `0 .. samples-1` starting from mask `0` and threshold `0.5`. -/
def coverageLadderAux (coverageValue : ℚ) (samples : Nat) : Nat × ℚ :=
  (List.range samples).foldl (ladderStep coverageValue) (0, 1 / 2)

/-- The mask produced by the coverage ladder of `applyState`. -/
def coverageLadder (coverageValue : ℚ) (samples : Nat) : Nat :=
  (coverageLadderAux coverageValue samples).1

/-- The complete mask computation of `applyState` (lines 287-317): if sample
coverage is enabled, run the ladder (guarded by `coverageValue != 0`) and
bitwise-complement the 32-bit word when inversion is requested (`~mask` on
`unsigned int` is xor with `0xFFFFFFFF`); otherwise the mask is all ones. -/
def applyStateCoverageMask (sampleCoverageEnabled : Bool) (coverageValue : ℚ)
    (coverageInvert : Bool) (samples : Nat) : Nat :=
  if sampleCoverageEnabled then
    let mask := if coverageValue ≠ 0 then coverageLadder coverageValue samples else 0
    if coverageInvert then mask ^^^ 0xFFFFFFFF else mask
  else 0xFFFFFFFF

/-- Written from the spec's words (§4.4) for comparison with the code:
"construct an `S`-bit mask by iterating sample indices `0..S-1`, maintaining a
running threshold starting at `0.5`; for each sample, left-shift the
accumulated mask by one bit, then if `(index+1) * coverageValue >= threshold`,
set the new bit and advance the threshold by `1.0`."  The spec's mask is a
full `S`-bit value: its words carry no machine word width, so the left shift
never discards bits.  Unlike the code, there is also no special case for a
zero coverage value. -/
def specLadderMask (coverageValue : ℚ) (samples : Nat) : Nat :=
  ((List.range samples).foldl
    (fun (p : Nat × ℚ) (index : Nat) =>
      let shifted := 2 * p.1
      if ((index : ℚ) + 1) * coverageValue ≥ p.2 then (shifted + 1, p.2 + 1)
      else (shifted, p.2))
    (0, 1 / 2)).1

/-- Structural helper for `popCount`: `fuel` bounds the recursion depth and is
irrelevant as soon as it is at least `n` (see `popCountAux_congr`). -/
def popCountAux : Nat → Nat → Nat
  | 0, _ => 0
  | fuel + 1, n => if n = 0 then 0 else n % 2 + popCountAux fuel (n / 2)

/-- Number of set bits of a natural number. -/
def popCount (n : Nat) : Nat := popCountAux n n

/-! Proof helpers for the ladder: an untruncated variant (the two agree while
the sample count stays within the 32-bit word), a bit counter, and an
integer-arithmetic mirror used to evaluate the ladder on concrete rationals. -/

/-- One ladder iteration without the 32-bit truncation. -/
def ladderStepNoMod (coverageValue : ℚ) (p : Nat × ℚ) (i : Nat) : Nat × ℚ :=
  if ((i : ℚ) + 1) * coverageValue ≥ p.2 then (2 * p.1 + 1, p.2 + 1)
  else (2 * p.1, p.2)

/-- The coverage ladder without the 32-bit truncation. -/
def coverageLadderAuxNoMod (coverageValue : ℚ) (samples : Nat) : Nat × ℚ :=
  (List.range samples).foldl (ladderStepNoMod coverageValue) (0, 1 / 2)

/-- How many bits the ladder sets in `samples` iterations: the threshold after
setting `k` bits is `1/2 + k`, so this recursion tracks the ladder exactly. -/
def kcount (coverageValue : ℚ) : Nat → Nat
  | 0 => 0
  | S + 1 =>
    kcount coverageValue S +
      (if ((S : ℚ) + 1) * coverageValue ≥ 1 / 2 + (kcount coverageValue S : ℚ) then 1 else 0)

/-- One ladder iteration in integer arithmetic, for coverage value `a / b`:
`(i+1) * (a/b) ≥ (2*k+1)/2` iff `2*(i+1)*a ≥ (2*k+1)*b`. -/
def ladderStepInt (a b : Nat) (q : Nat × Nat) (i : Nat) : Nat × Nat :=
  let shifted := (2 * q.1) % 2 ^ 32
  if 2 * (i + 1) * a ≥ (2 * q.2 + 1) * b then (shifted + 1, q.2 + 1)
  else (shifted, q.2)

/-- The coverage ladder state in integer arithmetic (coverage value `a / b`). -/
def coverageLadderIntAux (a b samples : Nat) : Nat × Nat :=
  (List.range samples).foldl (ladderStepInt a b) (0, 0)

/-- The coverage ladder mask in integer arithmetic (coverage value `a / b`). -/
def coverageLadderInt (a b samples : Nat) : Nat :=
  (coverageLadderIntAux a b samples).1

/-- One untruncated ladder iteration in integer arithmetic (coverage value
`a / b`), mirroring `ladderStepNoMod`. -/
def ladderStepIntNoMod (a b : Nat) (q : Nat × Nat) (i : Nat) : Nat × Nat :=
  if 2 * (i + 1) * a ≥ (2 * q.2 + 1) * b then (2 * q.1 + 1, q.2 + 1)
  else (2 * q.1, q.2)

/-- The untruncated coverage ladder state in integer arithmetic. -/
def coverageLadderIntNoModAux (a b samples : Nat) : Nat × Nat :=
  (List.range samples).foldl (ladderStepIntNoMod a b) (0, 0)

/-- The untruncated coverage ladder mask in integer arithmetic: the value of
`specLadderMask (a / b)`. -/
def coverageLadderIntNoMod (a b samples : Nat) : Nat :=
  (coverageLadderIntNoModAux a b samples).1

/-! ### `RendererD3D::skipDraw` (lines 492-517) -/

/-- Modelled from the spec: `gl::IsTriangleMode` lives in `common/utilities`,
outside this translation unit; §4.4 calls these the "triangle-family" modes. -/
def IsTriangleMode (mode : Nat) : Bool :=
  mode = GL_TRIANGLES || mode = GL_TRIANGLE_FAN || mode = GL_TRIANGLE_STRIP

/-- `RendererD3D::skipDraw`: points without a `gl_PointSize` write are
skipped (with a logged diagnostic, not an error); triangle modes with culling
enabled and cull mode `GL_FRONT_AND_BACK` are skipped; everything else
draws. -/
def skipDraw (usesPointSize cullFace : Bool) (cullMode drawMode : Nat) : Bool :=
  if drawMode = GL_POINTS then
    !usesPointSize
  else if IsTriangleMode drawMode then
    cullFace && (cullMode = GL_FRONT_AND_BACK)
  else
    false

/-! ### `RendererD3D::applyUniformBuffers` (lines 465-490) -/

/-- The error built by `applyUniformBuffers` for a used but unbound uniform
buffer binding point. -/
def unboundUniformBufferError : Error :=
  { code := GL_INVALID_OPERATION
    message := "It is undefined behaviour to have a used but unbound uniform buffer." }

/-- The loop of `applyUniformBuffers` over active uniform block indices:
resolve each block's binding point to the indexed uniform buffer; if that
buffer has id 0 return the invalid-operation error, otherwise collect it and
finish with the collaborator result of
`programBinary->applyUniformBuffers(boundBuffers, caps)`. -/
def applyUniformBuffersLoop (bufferIdOfBlock : Nat → Nat) (collabResult : Error) :
    List Nat → Error
  | [] => collabResult
  | i :: rest =>
    if bufferIdOfBlock i = 0 then unboundUniformBufferError
    else applyUniformBuffersLoop bufferIdOfBlock collabResult rest

/-! ### The two orchestrators (lines 44-126 and 128-201)

Collaborator steps whose implementation is outside this translation unit
(`generateSwizzle`, `applyRenderTarget`, `setRasterizerState`/`setBlendState`/
`setDepthStencilState`, `applyIndexBuffer`, `applyVertexBuffer`,
`applyShaders`, `setTexture`/`setSamplerState`, the backend draw) are modelled
by their observed `gl::Error` results, recorded in a `DrawEnv`; the
orchestrators below reproduce the exact control flow of `drawArrays` /
`drawElements` over those results and also return the ordered list of
pipeline steps the call invoked. -/

/-- The pipeline steps a draw call can invoke, in source order. -/
inductive Step
  | generateSwizzles
  | applyRenderTarget
  | applyState
  | applyIndexBuffer
  | applyVertexBuffer
  | applyTransformFeedbackBuffers
  | applyShaders
  | applyTextures
  | applyUniformBuffers
  | draw
  | markTransformFeedbackUsage
deriving DecidableEq

/-- Position of each pipeline step in the fixed sequencing order. -/
def stepOrder : Step → Nat
  | Step.generateSwizzles => 0
  | Step.applyRenderTarget => 1
  | Step.applyState => 2
  | Step.applyIndexBuffer => 3
  | Step.applyVertexBuffer => 4
  | Step.applyTransformFeedbackBuffers => 5
  | Step.applyShaders => 6
  | Step.applyTextures => 7
  | Step.applyUniformBuffers => 8
  | Step.draw => 9
  | Step.markTransformFeedbackUsage => 10

/-- Steps that change backend device state (or issue the draw).  Swizzle
generation touches only texture storage and `markTransformFeedbackUsage` only
flags buffer objects; neither is a device state change. -/
def isDeviceCall : Step → Bool
  | Step.generateSwizzles => false
  | Step.markTransformFeedbackUsage => false
  | _ => true

/-- Inputs of one draw call: results of the collaborator steps plus the data
the concretely embedded subroutines (`applyUniformBuffers`, `skipDraw`,
`applyTransformFeedbackBuffers`) read from `gl::State` / the program. -/
structure DrawEnv where
  generateSwizzlesResult : Error
  primitiveTypeOK : Bool
  applyRenderTargetResult : Error
  applyStateResult : Error
  applyIndexBufferResult : Error
  applyVertexBufferResult : Error
  currentTransformFeedback : Option (Bool × Bool)
  applyShadersResult : Error
  applyTexturesResult : Error
  activeUniformBlockCount : Nat
  uniformBlockBinding : Nat → Nat
  indexedUniformBufferId : Nat → Nat
  applyUniformBuffersCollabResult : Error
  usesPointSize : Bool
  cullFace : Bool
  cullMode : Nat
  drawResult : Error

/-- `RendererD3D::applyTransformFeedbackBuffers` (lines 334-346): active iff
a transform feedback object is bound (`some (isStarted, isPaused)`), started
and not paused. -/
def applyTransformFeedbackBuffers (env : DrawEnv) : Bool :=
  match env.currentTransformFeedback with
  | some (started, paused) => started && !paused
  | none => false

/-- `RendererD3D::applyUniformBuffers` over the `DrawEnv` data: block index
`i` is bound at binding point `uniformBlockBinding i`, whose indexed uniform
buffer has id `indexedUniformBufferId (uniformBlockBinding i)`. -/
def applyUniformBuffers (env : DrawEnv) : Error :=
  applyUniformBuffersLoop
    (fun i => env.indexedUniformBufferId (env.uniformBlockBinding i))
    env.applyUniformBuffersCollabResult
    (List.range env.activeUniformBlockCount)

/-- `RendererD3D::drawArrays` (lines 128-201): the returned `gl::Error` and
the ordered list of pipeline steps the call invoked. -/
def drawArrays (env : DrawEnv) (mode : Nat) : Error × List Step :=
  if (env.generateSwizzlesResult).isError then
    (env.generateSwizzlesResult, [Step.generateSwizzles])
  else if !env.primitiveTypeOK then
    (noError, [Step.generateSwizzles])
  else if (env.applyRenderTargetResult).isError then
    (env.applyRenderTargetResult, [Step.generateSwizzles, Step.applyRenderTarget])
  else if (env.applyStateResult).isError then
    (env.applyStateResult,
      [Step.generateSwizzles, Step.applyRenderTarget, Step.applyState])
  else if (env.applyVertexBufferResult).isError then
    (env.applyVertexBufferResult,
      [Step.generateSwizzles, Step.applyRenderTarget, Step.applyState,
        Step.applyVertexBuffer])
  else
    let tfActive := applyTransformFeedbackBuffers env
    let pre4 :=
      [Step.generateSwizzles, Step.applyRenderTarget, Step.applyState,
        Step.applyVertexBuffer] ++
        (if tfActive then [Step.applyTransformFeedbackBuffers] else [])
    if (env.applyShadersResult).isError then
      (env.applyShadersResult, pre4 ++ [Step.applyShaders])
    else if (env.applyTexturesResult).isError then
      (env.applyTexturesResult, pre4 ++ [Step.applyShaders, Step.applyTextures])
    else if (applyUniformBuffers env).isError then
      (applyUniformBuffers env,
        pre4 ++ [Step.applyShaders, Step.applyTextures, Step.applyUniformBuffers])
    else
      let preDraw :=
        pre4 ++ [Step.applyShaders, Step.applyTextures, Step.applyUniformBuffers]
      if skipDraw env.usesPointSize env.cullFace env.cullMode mode then
        (noError, preDraw)
      else if (env.drawResult).isError then
        (env.drawResult, preDraw ++ [Step.draw])
      else
        (noError, preDraw ++ [Step.draw] ++
          (if tfActive then [Step.markTransformFeedbackUsage] else []))

/-- `RendererD3D::drawElements` (lines 44-126): like `drawArrays` but with
the index-buffer translation step between fixed-function state and vertex
buffers, and no transform-feedback usage marking after the draw. -/
def drawElements (env : DrawEnv) (mode : Nat) : Error × List Step :=
  if (env.generateSwizzlesResult).isError then
    (env.generateSwizzlesResult, [Step.generateSwizzles])
  else if !env.primitiveTypeOK then
    (noError, [Step.generateSwizzles])
  else if (env.applyRenderTargetResult).isError then
    (env.applyRenderTargetResult, [Step.generateSwizzles, Step.applyRenderTarget])
  else if (env.applyStateResult).isError then
    (env.applyStateResult,
      [Step.generateSwizzles, Step.applyRenderTarget, Step.applyState])
  else if (env.applyIndexBufferResult).isError then
    (env.applyIndexBufferResult,
      [Step.generateSwizzles, Step.applyRenderTarget, Step.applyState,
        Step.applyIndexBuffer])
  else if (env.applyVertexBufferResult).isError then
    (env.applyVertexBufferResult,
      [Step.generateSwizzles, Step.applyRenderTarget, Step.applyState,
        Step.applyIndexBuffer, Step.applyVertexBuffer])
  else
    let tfActive := applyTransformFeedbackBuffers env
    let pre5 :=
      [Step.generateSwizzles, Step.applyRenderTarget, Step.applyState,
        Step.applyIndexBuffer, Step.applyVertexBuffer] ++
        (if tfActive then [Step.applyTransformFeedbackBuffers] else [])
    if (env.applyShadersResult).isError then
      (env.applyShadersResult, pre5 ++ [Step.applyShaders])
    else if (env.applyTexturesResult).isError then
      (env.applyTexturesResult, pre5 ++ [Step.applyShaders, Step.applyTextures])
    else if (applyUniformBuffers env).isError then
      (applyUniformBuffers env,
        pre5 ++ [Step.applyShaders, Step.applyTextures, Step.applyUniformBuffers])
    else
      let preDraw :=
        pre5 ++ [Step.applyShaders, Step.applyTextures, Step.applyUniformBuffers]
      if skipDraw env.usesPointSize env.cullFace env.cullMode mode then
        (noError, preDraw)
      else if (env.drawResult).isError then
        (env.drawResult, preDraw ++ [Step.draw])
      else
        (noError, preDraw ++ [Step.draw])

/-- The first pre-draw pipeline step of `drawArrays` that fails, with its
error (`none` when no pre-draw step fails, in particular when the call
returns early because the primitive type produces no geometry). -/
def firstFailureArrays (env : DrawEnv) : Option (Step × Error) :=
  if (env.generateSwizzlesResult).isError then
    some (Step.generateSwizzles, env.generateSwizzlesResult)
  else if !env.primitiveTypeOK then
    none
  else if (env.applyRenderTargetResult).isError then
    some (Step.applyRenderTarget, env.applyRenderTargetResult)
  else if (env.applyStateResult).isError then
    some (Step.applyState, env.applyStateResult)
  else if (env.applyVertexBufferResult).isError then
    some (Step.applyVertexBuffer, env.applyVertexBufferResult)
  else if (env.applyShadersResult).isError then
    some (Step.applyShaders, env.applyShadersResult)
  else if (env.applyTexturesResult).isError then
    some (Step.applyTextures, env.applyTexturesResult)
  else if (applyUniformBuffers env).isError then
    some (Step.applyUniformBuffers, applyUniformBuffers env)
  else
    none

/-- The first pre-draw pipeline step of `drawElements` that fails, with its
error. -/
def firstFailureElements (env : DrawEnv) : Option (Step × Error) :=
  if (env.generateSwizzlesResult).isError then
    some (Step.generateSwizzles, env.generateSwizzlesResult)
  else if !env.primitiveTypeOK then
    none
  else if (env.applyRenderTargetResult).isError then
    some (Step.applyRenderTarget, env.applyRenderTargetResult)
  else if (env.applyStateResult).isError then
    some (Step.applyState, env.applyStateResult)
  else if (env.applyIndexBufferResult).isError then
    some (Step.applyIndexBuffer, env.applyIndexBufferResult)
  else if (env.applyVertexBufferResult).isError then
    some (Step.applyVertexBuffer, env.applyVertexBufferResult)
  else if (env.applyShadersResult).isError then
    some (Step.applyShaders, env.applyShadersResult)
  else if (env.applyTexturesResult).isError then
    some (Step.applyTextures, env.applyTexturesResult)
  else if (applyUniformBuffers env).isError then
    some (Step.applyUniformBuffers, applyUniformBuffers env)
  else
    none

/-! ### `RendererD3D::getBoundFramebufferTextureSerials` (lines 531-557) -/

/-- View of a `gl::FramebufferAttachment`: whether it is a texture attachment
and, if so, the attached texture's identity serial. -/
structure AttachmentView where
  isTexture : Bool
  textureSerial : Nat

/-- View of the draw `gl::Framebuffer`: color attachments by index and the
depth-or-stencil attachment. -/
structure FramebufferView where
  colorbuffer : Nat → Option AttachmentView
  depthOrStencilbuffer : Option AttachmentView

/-- `gl::IMPLEMENTATION_MAX_DRAW_BUFFERS`, the fixed capacity of the color
attachment loop.  The constant lives in a header outside this translation
unit; its exact value is immaterial to the claims. -/
def IMPLEMENTATION_MAX_DRAW_BUFFERS : Nat := 8

/-- The serials collected by `getBoundFramebufferTextureSerials` before
sorting: one entry per color attachment that is a texture (in attachment
order), then the depth/stencil attachment if it is a texture. -/
def attachmentSerials (fb : FramebufferView) : List Nat :=
  ((List.range IMPLEMENTATION_MAX_DRAW_BUFFERS).filterMap (fun i =>
    match fb.colorbuffer i with
    | some attachment =>
      if attachment.isTexture then some attachment.textureSerial else none
    | none => none)) ++
  (match fb.depthOrStencilbuffer with
   | some attachment =>
     if attachment.isTexture then [attachment.textureSerial] else []
   | none => [])

/-- `getBoundFramebufferTextureSerials`: collect the serials, then
`std::sort` them (a sorted permutation of the input; the sorting algorithm
itself is irrelevant). -/
def getBoundFramebufferTextureSerials (fb : FramebufferView) : List Nat :=
  List.insertionSort (· ≤ ·) (attachmentSerials fb)

/-! ### `RendererD3D::applyTextures` (lines 370-463) -/

/-- `gl::SamplerType`: vertex-stage vs pixel-stage samplers. -/
inductive SamplerType
  | vertex
  | pixel
deriving DecidableEq

/-- Opaque content of a `gl::SamplerState` (addressing/filtering state); the
claims never inspect it, only pass it around. -/
structure SamplerState where
  stateId : Nat
deriving DecidableEq

/-- View of a `gl::Texture`: its identity serial, its own sampling state, and
its `isSamplerComplete` predicate (capabilities, extensions and client
version are folded into the function). -/
structure TextureView where
  textureSerial : Nat
  samplerState : SamplerState
  isSamplerComplete : SamplerState → Bool

/-- View of the `gl::ProgramBinary` sampler tables: used sampler range per
stage, expected texture target type per sampler, and the texture unit mapped
to each sampler (`-1` when none). -/
structure ProgramBinaryView where
  usedSamplerRange : SamplerType → Nat
  samplerTextureType : SamplerType → Nat → Nat
  samplerMapping : SamplerType → Nat → Int

/-- View of `gl::State` texture bindings: the texture bound to a unit for a
target type, and the optional `gl::Sampler` object bound to a unit (whose
state overrides the texture's own). -/
structure GLStateView where
  samplerTexture : Int → Nat → TextureView
  sampler : Int → Option SamplerState

/-- What `applyTextures` binds to one backend sampler slot. -/
inductive BoundTexture
  | noTexture
  | real (textureSerial : Nat)
  | placeholder (textureType : Nat)
deriving DecidableEq

/-- The binding `applyTextures` resolves for used sampler slot
`samplerIndex`: the mapped texture itself when it is sampler-complete and its
serial is not in the framebuffer serial set (`std::binary_search` on the
sorted serial array is membership, embedded as `List.contains`), the
incomplete-texture placeholder for the slot's texture target otherwise, and
no texture when no unit is mapped. -/
def resolveSamplerBinding (pb : ProgramBinaryView) (st : GLStateView)
    (shaderType : SamplerType) (framebufferSerials : List Nat)
    (samplerIndex : Nat) : BoundTexture :=
  let textureType := pb.samplerTextureType shaderType samplerIndex
  let textureUnit := pb.samplerMapping shaderType samplerIndex
  if textureUnit ≠ -1 then
    let texture := st.samplerTexture textureUnit textureType
    let sampler :=
      match st.sampler textureUnit with
      | some samplerObjectState => samplerObjectState
      | none => texture.samplerState
    if texture.isSamplerComplete sampler &&
        !(framebufferSerials.contains texture.textureSerial) then
      BoundTexture.real texture.textureSerial
    else
      BoundTexture.placeholder textureType
  else
    BoundTexture.noTexture

/-- `applyTextures` for one shader stage: the bindings applied to sampler
slots `0 .. usedSamplerRange-1`, then explicit no-texture bindings for the
remaining slots up to the stage's device sampler count. -/
def applyTextures (pb : ProgramBinaryView) (st : GLStateView)
    (shaderType : SamplerType) (framebufferSerials : List Nat)
    (samplerCount : Nat) : List (Nat × BoundTexture) :=
  (List.range (pb.usedSamplerRange shaderType)).map
    (fun samplerIndex =>
      (samplerIndex, resolveSamplerBinding pb st shaderType framebufferSerials samplerIndex)) ++
  (List.range' (pb.usedSamplerRange shaderType)
      (samplerCount - pb.usedSamplerRange shaderType)).map
    (fun samplerIndex => (samplerIndex, BoundTexture.noTexture))

/-! ### `RendererD3D::getIncompleteTexture` (lines 559-619)

`mIncompleteTextures` is a map from texture target to an owned placeholder
texture.  Placeholder instances are heap objects created with `new` /
`createTexture`; distinct creations yield distinct instances, modelled by an
allocation counter.  The pipeline starts with an empty map. -/

/-- The incomplete-texture cache: association list from texture target to
placeholder instance id, plus the next fresh instance id. -/
structure TextureCache where
  entries : List (Nat × Nat)
  nextTextureId : Nat
deriving DecidableEq

/-- The cache state a freshly constructed `RendererD3D` starts with. -/
def emptyTextureCache : TextureCache := { entries := [], nextTextureId := 0 }

/-- `mIncompleteTextures.find(type)`: first entry with the given key. -/
def cacheFind : List (Nat × Nat) → Nat → Option Nat
  | [], _ => none
  | (k, v) :: rest, ty => if k = ty then some v else cacheFind rest ty

/-- `RendererD3D::getIncompleteTexture`: return the cached placeholder for
the target type, creating and storing a fresh one on the first miss. -/
def getIncompleteTexture (c : TextureCache) (ty : Nat) : Nat × TextureCache :=
  match cacheFind c.entries ty with
  | some t => (t, c)
  | none =>
    (c.nextTextureId,
      { entries := c.entries ++ [(ty, c.nextTextureId)]
        nextTextureId := c.nextTextureId + 1 })

/-- Run a sequence of `getIncompleteTexture` lookups, keeping the cache. -/
def runGetIncompleteTextures (c : TextureCache) : List Nat → TextureCache
  | [] => c
  | ty :: rest => runGetIncompleteTextures (getIncompleteTexture c ty).2 rest

/-- Well-formedness invariant of the incomplete-texture cache: at most one
entry per target kind, pairwise-distinct placeholder instances, and every
stored instance id below the allocation counter. -/
structure CacheWF (c : TextureCache) : Prop where
  keysNodup : (c.entries.map Prod.fst).Nodup
  idsNodup : (c.entries.map Prod.snd).Nodup
  idsLt : ∀ p ∈ c.entries, p.2 < c.nextTextureId

/-! ### Concrete views used by witnesses and counterexamples -/

/-- A framebuffer with the same texture (serial 5) attached at color
attachment points 0 and 1. -/
def duplicateAttachmentFramebuffer : FramebufferView where
  colorbuffer := fun i =>
    if i < 2 then some { isTexture := true, textureSerial := 5 } else none
  depthOrStencilbuffer := none

/-- A framebuffer with a single texture attachment of serial 5. -/
def feedbackFramebuffer : FramebufferView where
  colorbuffer := fun i =>
    if i = 0 then some { isTexture := true, textureSerial := 5 } else none
  depthOrStencilbuffer := none

/-- A sampler-complete texture with serial 5 (the one attached to
`feedbackFramebuffer`). -/
def feedbackTexture : TextureView where
  textureSerial := 5
  samplerState := { stateId := 0 }
  isSamplerComplete := fun _ => true

/-- A program using one 2D sampler mapped to texture unit 0. -/
def feedbackProgramBinary : ProgramBinaryView where
  usedSamplerRange := fun _ => 1
  samplerTextureType := fun _ _ => GL_TEXTURE_2D
  samplerMapping := fun _ _ => 0

/-- GL state binding `feedbackTexture` everywhere, no sampler objects. -/
def feedbackGLState : GLStateView where
  samplerTexture := fun _ _ => feedbackTexture
  sampler := fun _ => none

/-! ### Concrete draw environments used by witnesses and counterexamples -/

/-- A draw environment in which every collaborator step succeeds, geometry is
produced, no transform feedback is bound, no uniform blocks are active, the
program writes point size, and culling is off. -/
def successEnv : DrawEnv where
  generateSwizzlesResult := noError
  primitiveTypeOK := true
  applyRenderTargetResult := noError
  applyStateResult := noError
  applyIndexBufferResult := noError
  applyVertexBufferResult := noError
  currentTransformFeedback := none
  applyShadersResult := noError
  applyTexturesResult := noError
  activeUniformBlockCount := 0
  uniformBlockBinding := fun i => i
  indexedUniformBufferId := fun _ => 1
  applyUniformBuffersCollabResult := noError
  usesPointSize := true
  cullFace := false
  cullMode := 0
  drawResult := noError

/-- The spec's scenario for C3: one used uniform block with binding point 3,
and indexed uniform-buffer slot 3 unbound (id 0). -/
def unboundUniformBufferEnv : DrawEnv :=
  { successEnv with
    activeUniformBlockCount := 1
    uniformBlockBinding := fun _ => 3
    indexedUniformBufferId := fun _ => 0 }

/-- Environment for the C5 counterexample: the primitive produces no
geometry, but the swizzle-generation pre-pass (which runs first) fails. -/
def noGeometrySwizzleFailureEnv : DrawEnv :=
  { successEnv with
    generateSwizzlesResult := { code := GL_OUT_OF_MEMORY }
    primitiveTypeOK := false }

/-- Environment producing no geometry, with all collaborator steps fine. -/
def noGeometryEnv : DrawEnv :=
  { successEnv with primitiveTypeOK := false }

/-- Environment whose fixed-function state application fails. -/
def stateFailureEnv : DrawEnv :=
  { successEnv with applyStateResult := { code := GL_OUT_OF_MEMORY } }

/-- Environment for C9: points drawn by a program not writing point size. -/
def noPointSizeEnv : DrawEnv :=
  { successEnv with usesPointSize := false }

theorem popCountAux_zero (fuel : Nat) : popCountAux fuel 0 = 0 := by
  cases fuel <;> simp [popCountAux]

theorem popCountAux_congr : ∀ (f1 f2 n : Nat), n ≤ f1 → n ≤ f2 →
    popCountAux f1 n = popCountAux f2 n := by
  intro f1
  induction f1 with
  | zero =>
    intro f2 n h1 _
    interval_cases n
    simp [popCountAux_zero]
  | succ f ih =>
    intro f2 n h1 h2
    by_cases hn : n = 0
    · subst hn; simp [popCountAux_zero]
    · obtain ⟨f2p, rfl⟩ : ∃ m, f2 = m + 1 := by
        cases f2 with
        | zero => omega
        | succ m => exact ⟨m, rfl⟩
      simp only [popCountAux, if_neg hn]
      have hd : n / 2 < n := Nat.div_lt_self (Nat.pos_of_ne_zero hn) (by decide)
      have := ih f2p (n / 2) (by omega) (by omega)
      omega

theorem popCount_unfold (n : Nat) (hn : n ≠ 0) :
    popCount n = n % 2 + popCount (n / 2) := by
  have hd : n / 2 < n := Nat.div_lt_self (Nat.pos_of_ne_zero hn) (by decide)
  obtain ⟨m, rfl⟩ : ∃ m, n = m + 1 := by
    cases n with
    | zero => omega
    | succ m => exact ⟨m, rfl⟩
  simp only [popCount, popCountAux, if_neg hn]
  have := popCountAux_congr m ((m + 1) / 2) ((m + 1) / 2) (by omega) (by omega)
  omega

theorem popCount_two_mul (m : Nat) : popCount (2 * m) = popCount m := by
  by_cases hm : m = 0
  · subst hm; rfl
  · rw [popCount_unfold (2 * m) (by omega)]
    have h2 : 2 * m % 2 = 0 := by omega
    have h3 : 2 * m / 2 = m := by omega
    rw [h2, h3]
    omega

theorem popCount_two_mul_add_one (m : Nat) : popCount (2 * m + 1) = popCount m + 1 := by
  rw [popCount_unfold (2 * m + 1) (by omega)]
  have h2 : (2 * m + 1) % 2 = 1 := by omega
  have h3 : (2 * m + 1) / 2 = m := by omega
  rw [h2, h3]
  omega

theorem coverageLadderAux_succ (c : ℚ) (S : Nat) :
    coverageLadderAux c (S + 1) = ladderStep c (coverageLadderAux c S) S := by
  simp [coverageLadderAux, List.range_succ]

theorem coverageLadderAuxNoMod_succ (c : ℚ) (S : Nat) :
    coverageLadderAuxNoMod c (S + 1) = ladderStepNoMod c (coverageLadderAuxNoMod c S) S := by
  simp [coverageLadderAuxNoMod, List.range_succ]

theorem coverageLadderIntAux_succ (a b S : Nat) :
    coverageLadderIntAux a b (S + 1) = ladderStepInt a b (coverageLadderIntAux a b S) S := by
  simp [coverageLadderIntAux, List.range_succ]

theorem coverageLadderIntNoModAux_succ (a b S : Nat) :
    coverageLadderIntNoModAux a b (S + 1) =
      ladderStepIntNoMod a b (coverageLadderIntNoModAux a b S) S := by
  simp [coverageLadderIntNoModAux, List.range_succ]

theorem coverageLadderAuxNoMod_fst_lt (c : ℚ) : ∀ S : Nat,
    (coverageLadderAuxNoMod c S).1 < 2 ^ S := by
  intro S
  induction S with
  | zero => simp [coverageLadderAuxNoMod]
  | succ S ih =>
    rw [coverageLadderAuxNoMod_succ]
    have hpow : 2 ^ (S + 1) = 2 * 2 ^ S := by ring
    simp only [ladderStepNoMod]
    split <;> simp only [] <;> omega

theorem coverageLadderAux_eq_noMod (c : ℚ) : ∀ S : Nat, S ≤ 32 →
    coverageLadderAux c S = coverageLadderAuxNoMod c S := by
  intro S
  induction S with
  | zero => intro _; rfl
  | succ S ih =>
    intro hS
    have hlt := coverageLadderAuxNoMod_fst_lt c S
    rw [coverageLadderAux_succ, coverageLadderAuxNoMod_succ, ih (by omega)]
    have hmod : (2 * (coverageLadderAuxNoMod c S).1) % 2 ^ 32
        = 2 * (coverageLadderAuxNoMod c S).1 := by
      apply Nat.mod_eq_of_lt
      calc 2 * (coverageLadderAuxNoMod c S).1 < 2 * 2 ^ S := by omega
        _ = 2 ^ (S + 1) := by ring
        _ ≤ 2 ^ 32 := Nat.pow_le_pow_right (by decide) (by omega)
    simp only [ladderStep, ladderStepNoMod, hmod]

theorem kcount_succ (c : ℚ) (S : Nat) :
    kcount c (S + 1) =
      kcount c S + (if ((S : ℚ) + 1) * c ≥ 1 / 2 + (kcount c S : ℚ) then 1 else 0) := rfl

theorem coverageLadderAuxNoMod_spec (c : ℚ) : ∀ S : Nat,
    (coverageLadderAuxNoMod c S).2 = 1 / 2 + (kcount c S : ℚ) ∧
    popCount (coverageLadderAuxNoMod c S).1 = kcount c S := by
  intro S
  induction S with
  | zero =>
    refine ⟨?_, rfl⟩
    simp [coverageLadderAuxNoMod, kcount]
  | succ S ih =>
    obtain ⟨ih2, ih1⟩ := ih
    rw [coverageLadderAuxNoMod_succ, kcount_succ]
    by_cases hc : ((S : ℚ) + 1) * c ≥ 1 / 2 + (kcount c S : ℚ)
    · simp only [ladderStepNoMod, ih2, if_pos hc]
      refine ⟨by push_cast; ring, ?_⟩
      rw [popCount_two_mul_add_one, ih1]
    · simp only [ladderStepNoMod, ih2, if_neg hc]
      refine ⟨by push_cast; ring, ?_⟩
      rw [popCount_two_mul, ih1]
      omega

theorem kcount_mono {c1 c2 : ℚ} (h : c1 ≤ c2) : ∀ S : Nat, kcount c1 S ≤ kcount c2 S := by
  intro S
  induction S with
  | zero => simp [kcount]
  | succ S ih =>
    rw [kcount_succ, kcount_succ]
    rcases Nat.lt_or_ge (kcount c1 S) (kcount c2 S) with hlt | hge
    · split <;> split <;> omega
    · have heq : kcount c1 S = kcount c2 S := by omega
      have himp : ((S : ℚ) + 1) * c1 ≥ 1 / 2 + (kcount c1 S : ℚ) →
          ((S : ℚ) + 1) * c2 ≥ 1 / 2 + (kcount c2 S : ℚ) := by
        intro h1
        have hmul : ((S : ℚ) + 1) * c1 ≤ ((S : ℚ) + 1) * c2 :=
          mul_le_mul_of_nonneg_left h (by positivity)
        rw [← heq]
        linarith
      split <;> split <;> first | omega | (exfalso; rename_i ha hb; exact hb (himp ha))

theorem ladderStep_pair (c : ℚ) (m : Nat) (t : ℚ) (i : Nat) :
    ladderStep c (m, t) i =
      if ((i : ℚ) + 1) * c ≥ t then ((2 * m) % 2 ^ 32 + 1, t + 1)
      else ((2 * m) % 2 ^ 32, t) := rfl

theorem ladderStepInt_pair (a b m k i : Nat) :
    ladderStepInt a b (m, k) i =
      if 2 * (i + 1) * a ≥ (2 * k + 1) * b then ((2 * m) % 2 ^ 32 + 1, k + 1)
      else ((2 * m) % 2 ^ 32, k) := rfl

theorem foldl_ladderStep_zero : ∀ (l : List Nat) (t : ℚ), 0 < t →
    l.foldl (ladderStep 0) (0, t) = (0, t) := by
  intro l
  induction l with
  | nil => intro t _; rfl
  | cons a l ih =>
    intro t ht
    have hcond : ¬ (((a : ℚ) + 1) * 0 ≥ t) := by
      rw [mul_zero]
      exact not_le.mpr ht
    rw [List.foldl_cons, ladderStep_pair, if_neg hcond]
    have h0 : (2 * 0) % 2 ^ 32 = 0 := by norm_num
    rw [h0]
    exact ih t ht

theorem coverageLadder_zero_eq (S : Nat) : coverageLadder 0 S = 0 := by
  have h := foldl_ladderStep_zero (List.range S) (1 / 2) (by norm_num)
  unfold coverageLadder coverageLadderAux
  rw [h]

theorem ladderStepNoMod_pair (c : ℚ) (m : Nat) (t : ℚ) (i : Nat) :
    ladderStepNoMod c (m, t) i =
      if ((i : ℚ) + 1) * c ≥ t then (2 * m + 1, t + 1) else (2 * m, t) := rfl

theorem ladderStepIntNoMod_pair (a b m k i : Nat) :
    ladderStepIntNoMod a b (m, k) i =
      if 2 * (i + 1) * a ≥ (2 * k + 1) * b then (2 * m + 1, k + 1)
      else (2 * m, k) := rfl

theorem specLadderMask_eq_noMod (c : ℚ) (S : Nat) :
    specLadderMask c S = (coverageLadderAuxNoMod c S).1 := rfl

theorem specLadderMask_eq_coverageLadder (c : ℚ) (S : Nat) (hS : S ≤ 32) :
    specLadderMask c S = coverageLadder c S := by
  rw [specLadderMask_eq_noMod]
  unfold coverageLadder
  rw [coverageLadderAux_eq_noMod c S hS]

theorem ladder_cmp_iff (a b i k : Nat) (hb : 0 < b) :
    (((i : ℚ) + 1) * ((a : ℚ) / (b : ℚ)) ≥ 1 / 2 + (k : ℚ)) ↔
      2 * (i + 1) * a ≥ (2 * k + 1) * b := by
  have hbq : (0 : ℚ) < (b : ℚ) := by exact_mod_cast hb
  rw [ge_iff_le, ← mul_div_assoc, le_div_iff₀ hbq]
  rw [ge_iff_le, ← Nat.cast_le (α := ℚ)]
  push_cast
  constructor <;> intro h <;> nlinarith

theorem coverageLadderAux_int (a b : Nat) (hb : 0 < b) : ∀ S : Nat,
    (coverageLadderAux ((a : ℚ) / (b : ℚ)) S).1 = (coverageLadderIntAux a b S).1 ∧
    (coverageLadderAux ((a : ℚ) / (b : ℚ)) S).2 =
      1 / 2 + ((coverageLadderIntAux a b S).2 : ℚ) := by
  intro S
  induction S with
  | zero => simp [coverageLadderAux, coverageLadderIntAux]
  | succ S ih =>
    obtain ⟨ih1, ih2⟩ := ih
    rw [coverageLadderAux_succ, coverageLadderIntAux_succ,
      show coverageLadderAux ((a : ℚ) / (b : ℚ)) S
        = ((coverageLadderAux ((a : ℚ) / (b : ℚ)) S).1,
           (coverageLadderAux ((a : ℚ) / (b : ℚ)) S).2) from rfl,
      show coverageLadderIntAux a b S
        = ((coverageLadderIntAux a b S).1, (coverageLadderIntAux a b S).2) from rfl,
      ladderStep_pair, ladderStepInt_pair, ih1, ih2]
    simp only [ladder_cmp_iff a b S (coverageLadderIntAux a b S).2 hb]
    split
    · exact ⟨rfl, by push_cast; ring⟩
    · exact ⟨rfl, rfl⟩

theorem coverageLadder_int (a b : Nat) (hb : 0 < b) (S : Nat) :
    coverageLadder ((a : ℚ) / (b : ℚ)) S = coverageLadderInt a b S :=
  (coverageLadderAux_int a b hb S).1

theorem coverageLadderAuxNoMod_int (a b : Nat) (hb : 0 < b) : ∀ S : Nat,
    (coverageLadderAuxNoMod ((a : ℚ) / (b : ℚ)) S).1 = (coverageLadderIntNoModAux a b S).1 ∧
    (coverageLadderAuxNoMod ((a : ℚ) / (b : ℚ)) S).2 =
      1 / 2 + ((coverageLadderIntNoModAux a b S).2 : ℚ) := by
  intro S
  induction S with
  | zero => simp [coverageLadderAuxNoMod, coverageLadderIntNoModAux]
  | succ S ih =>
    obtain ⟨ih1, ih2⟩ := ih
    rw [coverageLadderAuxNoMod_succ, coverageLadderIntNoModAux_succ,
      show coverageLadderAuxNoMod ((a : ℚ) / (b : ℚ)) S
        = ((coverageLadderAuxNoMod ((a : ℚ) / (b : ℚ)) S).1,
           (coverageLadderAuxNoMod ((a : ℚ) / (b : ℚ)) S).2) from rfl,
      show coverageLadderIntNoModAux a b S
        = ((coverageLadderIntNoModAux a b S).1, (coverageLadderIntNoModAux a b S).2) from rfl,
      ladderStepNoMod_pair, ladderStepIntNoMod_pair, ih1, ih2]
    simp only [ladder_cmp_iff a b S (coverageLadderIntNoModAux a b S).2 hb]
    split
    · exact ⟨rfl, by push_cast; ring⟩
    · exact ⟨rfl, rfl⟩

theorem specLadderMask_int (a b : Nat) (hb : 0 < b) (S : Nat) :
    specLadderMask ((a : ℚ) / (b : ℚ)) S = coverageLadderIntNoMod a b S := by
  rw [specLadderMask_eq_noMod]
  exact (coverageLadderAuxNoMod_int a b hb S).1

theorem applyStateCoverageMask_enabled (c : ℚ) (invert : Bool) (S : Nat) :
    applyStateCoverageMask true c invert S =
      (if invert then (if c ≠ 0 then coverageLadder c S else 0) ^^^ 0xFFFFFFFF
       else (if c ≠ 0 then coverageLadder c S else 0)) := by
  cases invert <;> rfl

theorem coverageLadder_one_half_four : coverageLadder (1 / 2 : ℚ) 4 = 10 := by
  have hq : (1 / 2 : ℚ) = ((1 : ℕ) : ℚ) / ((2 : ℕ) : ℚ) := by norm_num
  rw [hq, coverageLadder_int 1 2 (by norm_num) 4]
  decide

/-! ### Claim theorems about the sample-coverage mask -/

/-- C1 (amended): while the sample count stays within the 32-bit mask word
(`S ≤ 32`), the mask `applyState` derives with sample-coverage testing
enabled is exactly the spec's threshold-ladder result (inverted when
requested) — the code's extra `coverageValue != 0` guard does not change the
outcome since the ladder sets no bit at coverage zero; for `S = 4`,
`c = 1/2`, no inversion, exactly 2 bits are set; and with sample-coverage
testing disabled the mask is all-ones. -/
theorem coverage_mask_is_spec_ladder_within_word :
    (∀ (c : ℚ) (invert : Bool) (S : Nat), S ≤ 32 →
      applyStateCoverageMask true c invert S =
        (if invert then specLadderMask c S ^^^ 0xFFFFFFFF else specLadderMask c S)) ∧
    popCount (applyStateCoverageMask true (1 / 2) false 4) = 2 ∧
    (∀ (c : ℚ) (invert : Bool) (S : Nat),
      applyStateCoverageMask false c invert S = 0xFFFFFFFF) := by
  refine ⟨?_, ?_, fun c invert S => rfl⟩
  · intro c invert S hS
    rw [applyStateCoverageMask_enabled, specLadderMask_eq_coverageLadder c S hS]
    by_cases hc : c = 0
    · subst hc
      rw [coverageLadder_zero_eq]
      simp
    · simp [hc]
  · rw [applyStateCoverageMask_enabled]
    have hne : (1 / 2 : ℚ) ≠ 0 := by norm_num
    simp only [if_neg (by simp : ¬ (false = true)), if_pos hne, coverageLadder_one_half_four]
    decide

/-- Witness for C1's amendment at `c = 1/2`, `invert = false`, `S = 4`. -/
theorem coverage_mask_is_spec_ladder_within_word_witness :
    applyStateCoverageMask true (1 / 2 : ℚ) false 4 =
      (if false then specLadderMask (1 / 2 : ℚ) 4 ^^^ 0xFFFFFFFF
       else specLadderMask (1 / 2 : ℚ) 4) :=
  coverage_mask_is_spec_ladder_within_word.1 (1 / 2) false 4 (by decide)

/-- C1 (counterexample): for sample counts past the 32-bit word the derived
mask is NOT the spec ladder's result: at `S = 35`, `c = 1/6` the code's
`unsigned int` left shift drops the bit set at sample 3 past position 31,
while the spec's `S`-bit ladder keeps it. -/
theorem coverage_mask_differs_from_spec_ladder_at_35_samples :
    applyStateCoverageMask true ((1 : ℚ) / 6) false 35 ≠ specLadderMask ((1 : ℚ) / 6) 35 := by
  have hcast : ((1 : ℚ) / 6) = ((1 : ℕ) : ℚ) / ((6 : ℕ) : ℚ) := by norm_num
  have hne : ((1 : ℚ) / 6) ≠ 0 := by norm_num
  have hcode : applyStateCoverageMask true ((1 : ℚ) / 6) false 35 = coverageLadderInt 1 6 35 := by
    rw [applyStateCoverageMask_enabled]
    simp only [if_neg (by simp : ¬ (false = true)), if_pos hne]
    rw [hcast]
    exact coverageLadder_int 1 6 (by norm_num) 35
  have hspec : specLadderMask ((1 : ℚ) / 6) 35 = coverageLadderIntNoMod 1 6 35 := by
    rw [hcast]
    exact specLadderMask_int 1 6 (by norm_num) 35
  rw [hcode, hspec]
  set_option maxRecDepth 10000 in decide

/-- C4 (amended): while the sample count stays within the 32-bit mask word
(`S ≤ 32`), the popcount of the pre-inversion ladder mask is monotone
non-decreasing in the coverage value, and with inversion requested the mask
`applyState` produces is the bitwise complement (within the 32-bit word) of
the mask produced without inversion. -/
theorem coverage_popcount_monotone_within_word :
    (∀ (c1 c2 : ℚ) (S : Nat), S ≤ 32 → c1 ≤ c2 →
      popCount (coverageLadder c1 S) ≤ popCount (coverageLadder c2 S)) ∧
    (∀ (c : ℚ) (S : Nat),
      applyStateCoverageMask true c true S =
        applyStateCoverageMask true c false S ^^^ 0xFFFFFFFF) := by
  constructor
  · intro c1 c2 S hS h
    have e1 : coverageLadder c1 S = (coverageLadderAuxNoMod c1 S).1 := by
      unfold coverageLadder
      rw [coverageLadderAux_eq_noMod c1 S hS]
    have e2 : coverageLadder c2 S = (coverageLadderAuxNoMod c2 S).1 := by
      unfold coverageLadder
      rw [coverageLadderAux_eq_noMod c2 S hS]
    rw [e1, e2, (coverageLadderAuxNoMod_spec c1 S).2, (coverageLadderAuxNoMod_spec c2 S).2]
    exact kcount_mono h S
  · intro c S
    rw [applyStateCoverageMask_enabled, applyStateCoverageMask_enabled]
    simp

/-- Witness for C4's amendment at `c1 = 0 ≤ c2 = 1/2`, `S = 4`. -/
theorem coverage_popcount_monotone_within_word_witness :
    popCount (coverageLadder (0 : ℚ) 4) ≤ popCount (coverageLadder (1 / 2 : ℚ) 4) :=
  coverage_popcount_monotone_within_word.1 0 (1 / 2) 4 (by decide) (le_of_lt one_half_pos)

/-- C4 (counterexample): the popcount of the pre-inversion mask is NOT
monotone in the coverage value for every sample count.  At `S = 35` the left
shifts push the three oldest ladder bits out of the 32-bit `unsigned int`
word: coverage `4/25` keeps 6 bits in the word while the larger coverage
`1/6` keeps only 5, because `1/6` crosses its first threshold already at
sample 3, which is one of the bits shifted out. -/
theorem coverage_popcount_not_monotone_at_35_samples :
    ((4 : ℚ) / 25 ≤ 1 / 6) ∧
    ¬ popCount (coverageLadder ((4 : ℚ) / 25) 35) ≤ popCount (coverageLadder ((1 : ℚ) / 6) 35) := by
  constructor
  · norm_num
  · have h1 : coverageLadder ((4 : ℚ) / 25) 35 = coverageLadderInt 4 25 35 := by
      rw [show ((4 : ℚ) / 25) = ((4 : ℕ) : ℚ) / ((25 : ℕ) : ℚ) from by norm_num]
      exact coverageLadder_int 4 25 (by norm_num) 35
    have h2 : coverageLadder ((1 : ℚ) / 6) 35 = coverageLadderInt 1 6 35 := by
      rw [show ((1 : ℚ) / 6) = ((1 : ℕ) : ℚ) / ((6 : ℕ) : ℚ) from by norm_num]
      exact coverageLadder_int 1 6 (by norm_num) 35
    rw [h1, h2]
    have e1 : popCount (coverageLadderInt 4 25 35) = 6 := by
      set_option maxRecDepth 10000 in decide
    have e2 : popCount (coverageLadderInt 1 6 35) = 5 := by
      set_option maxRecDepth 10000 in decide
    omega

/-- C10: with sample coverage enabled and inversion requested, `~mask` is
taken on the whole 32-bit `unsigned int`, so for `S < 32` every bit from
position `S` up to 31 of the resulting mask is set; and at coverage value 0
with inversion the mask is `0xFFFFFFFF` for every sample count. -/
theorem inverted_mask_sets_bits_at_and_above_sample_count :
    (∀ (c : ℚ) (S j : Nat), S < 32 → S ≤ j → j < 32 →
      Nat.testBit (applyStateCoverageMask true c true S) j = true) ∧
    (∀ S : Nat, applyStateCoverageMask true 0 true S = 0xFFFFFFFF) := by
  constructor
  · intro c S j hS hSj hj
    have hpow : (2 : ℕ) ^ S ≤ 2 ^ j := Nat.pow_le_pow_right (by decide) hSj
    have hposj : 0 < (2 : ℕ) ^ j := Nat.pos_pow_of_pos j (by decide)
    have hlad : coverageLadder c S < 2 ^ S := by
      unfold coverageLadder
      rw [coverageLadderAux_eq_noMod c S (by omega)]
      exact coverageLadderAuxNoMod_fst_lt c S
    have hm : (if c ≠ 0 then coverageLadder c S else 0) < 2 ^ j := by
      split <;> omega
    rw [applyStateCoverageMask_enabled, if_pos rfl, Nat.testBit_xor,
      Nat.testBit_lt_two_pow hm,
      show (0xFFFFFFFF : ℕ) = 2 ^ 32 - 1 from by norm_num,
      Nat.testBit_two_pow_sub_one]
    simp [hj]
  · intro S
    rw [applyStateCoverageMask_enabled]
    simp

/-- Witness for C10 at `c = 1/2`, `S = 4`, bit position `j = 7`. -/
theorem inverted_mask_sets_bits_witness :
    Nat.testBit (applyStateCoverageMask true (1 / 2 : ℚ) true 4) 7 = true :=
  inverted_mask_sets_bits_at_and_above_sample_count.1 (1 / 2) 4 7 (by decide) (by decide)
    (by decide)

/-! ### Lemmas about `applyUniformBuffers` -/

theorem applyUniformBuffersLoop_unbound (f : Nat → Nat) (collab : Error) :
    ∀ l : List Nat, (∃ i ∈ l, f i = 0) →
      applyUniformBuffersLoop f collab l = unboundUniformBufferError := by
  intro l
  induction l with
  | nil =>
    rintro ⟨i, hi, _⟩
    cases hi
  | cons a rest ih =>
    rintro ⟨i, hi, hf⟩
    by_cases ha : f a = 0
    · simp [applyUniformBuffersLoop, ha]
    · have hmem : i ∈ rest := by
        rcases List.mem_cons.mp hi with rfl | hr
        · exact absurd hf ha
        · exact hr
      simp only [applyUniformBuffersLoop, if_neg ha]
      exact ih ⟨i, hmem, hf⟩

theorem applyUniformBuffers_unbound (env : DrawEnv)
    (h : ∃ i, i < env.activeUniformBlockCount ∧
      env.indexedUniformBufferId (env.uniformBlockBinding i) = 0) :
    applyUniformBuffers env = unboundUniformBufferError := by
  obtain ⟨i, hi, hf⟩ := h
  exact applyUniformBuffersLoop_unbound _ _ _ ⟨i, List.mem_range.mpr hi, hf⟩

theorem unboundUniformBufferError_isError : unboundUniformBufferError.isError = true := rfl

theorem drawArrays_no_draw_of_uniform_failure (env : DrawEnv) (mode : Nat)
    (herr : (applyUniformBuffers env).isError = true) :
    Step.draw ∉ (drawArrays env mode).2 := by
  simp only [drawArrays]
  split_ifs <;> simp_all

theorem drawElements_no_draw_of_uniform_failure (env : DrawEnv) (mode : Nat)
    (herr : (applyUniformBuffers env).isError = true) :
    Step.draw ∉ (drawElements env mode).2 := by
  simp only [drawElements]
  split_ifs <;> simp_all

theorem drawArrays_result_of_uniform_failure (env : DrawEnv) (mode : Nat)
    (herr : (applyUniformBuffers env).isError = true)
    (h1 : env.generateSwizzlesResult.isError = false) (h2 : env.primitiveTypeOK = true)
    (h3 : env.applyRenderTargetResult.isError = false)
    (h4 : env.applyStateResult.isError = false)
    (h5 : env.applyVertexBufferResult.isError = false)
    (h6 : env.applyShadersResult.isError = false)
    (h7 : env.applyTexturesResult.isError = false) :
    (drawArrays env mode).1 = applyUniformBuffers env := by
  simp only [drawArrays]
  split_ifs <;> simp_all

set_option maxHeartbeats 1000000 in
theorem drawElements_result_of_uniform_failure (env : DrawEnv) (mode : Nat)
    (herr : (applyUniformBuffers env).isError = true)
    (h1 : env.generateSwizzlesResult.isError = false) (h2 : env.primitiveTypeOK = true)
    (h3 : env.applyRenderTargetResult.isError = false)
    (h4 : env.applyStateResult.isError = false)
    (h5 : env.applyIndexBufferResult.isError = false)
    (h6 : env.applyVertexBufferResult.isError = false)
    (h7 : env.applyShadersResult.isError = false)
    (h8 : env.applyTexturesResult.isError = false) :
    (drawElements env mode).1 = applyUniformBuffers env := by
  simp only [drawElements]
  split_ifs <;> simp_all

/-- C3: when some active uniform block's binding point has no buffer bound
(id 0), the uniform-buffer validation of `applyUniformBuffers` fails with the
invalid-operation error carrying a human-readable message; no backend draw is
issued by `drawArrays` or `drawElements`; and when every earlier pipeline
step succeeds the call returns exactly that error. -/
theorem unbound_uniform_buffer_fails_draw (env : DrawEnv) (mode : Nat)
    (h : ∃ i, i < env.activeUniformBlockCount ∧
      env.indexedUniformBufferId (env.uniformBlockBinding i) = 0) :
    applyUniformBuffers env = unboundUniformBufferError ∧
    unboundUniformBufferError.code = GL_INVALID_OPERATION ∧
    unboundUniformBufferError.message ≠ "" ∧
    Step.draw ∉ (drawArrays env mode).2 ∧
    Step.draw ∉ (drawElements env mode).2 ∧
    (env.generateSwizzlesResult.isError = false → env.primitiveTypeOK = true →
      env.applyRenderTargetResult.isError = false →
      env.applyStateResult.isError = false →
      env.applyVertexBufferResult.isError = false →
      env.applyShadersResult.isError = false →
      env.applyTexturesResult.isError = false →
      (drawArrays env mode).1 = unboundUniformBufferError) ∧
    (env.generateSwizzlesResult.isError = false → env.primitiveTypeOK = true →
      env.applyRenderTargetResult.isError = false →
      env.applyStateResult.isError = false →
      env.applyIndexBufferResult.isError = false →
      env.applyVertexBufferResult.isError = false →
      env.applyShadersResult.isError = false →
      env.applyTexturesResult.isError = false →
      (drawElements env mode).1 = unboundUniformBufferError) := by
  have hloop := applyUniformBuffers_unbound env h
  have herr : (applyUniformBuffers env).isError = true := by
    rw [hloop]
    exact unboundUniformBufferError_isError
  refine ⟨hloop, rfl, by simp [unboundUniformBufferError], ?_, ?_, ?_, ?_⟩
  · exact drawArrays_no_draw_of_uniform_failure env mode herr
  · exact drawElements_no_draw_of_uniform_failure env mode herr
  · intro h1 h2 h3 h4 h5 h6 h7
    rw [drawArrays_result_of_uniform_failure env mode herr h1 h2 h3 h4 h5 h6 h7]
    exact hloop
  · intro h1 h2 h3 h4 h5 h6 h7 h8
    rw [drawElements_result_of_uniform_failure env mode herr h1 h2 h3 h4 h5 h6 h7 h8]
    exact hloop

/-- Witness for C3 at the spec's scenario (binding point 3 unbound). -/
theorem unbound_uniform_buffer_fails_draw_witness :
    applyUniformBuffers unboundUniformBufferEnv = unboundUniformBufferError ∧
    (drawArrays unboundUniformBufferEnv GL_TRIANGLES).1 = unboundUniformBufferError ∧
    Step.draw ∉ (drawArrays unboundUniformBufferEnv GL_TRIANGLES).2 := by
  have h : ∃ i, i < unboundUniformBufferEnv.activeUniformBlockCount ∧
      unboundUniformBufferEnv.indexedUniformBufferId
        (unboundUniformBufferEnv.uniformBlockBinding i) = 0 :=
    ⟨0, by decide, rfl⟩
  have hall := unbound_uniform_buffer_fails_draw unboundUniformBufferEnv GL_TRIANGLES h
  exact ⟨hall.1, hall.2.2.2.2.2.1 rfl rfl rfl rfl rfl rfl rfl, hall.2.2.2.1⟩

/-! ### C5: a primitive that produces no geometry -/

set_option maxHeartbeats 1600000 in
theorem drawArrays_no_geometry_filter (env : DrawEnv) (mode : Nat)
    (h : env.primitiveTypeOK = false) :
    (drawArrays env mode).2.filter isDeviceCall = [] ∧
    Step.draw ∉ (drawArrays env mode).2 := by
  simp only [drawArrays, h, Bool.not_false]
  cases hsw : env.generateSwizzlesResult.isError <;> simp [hsw, isDeviceCall]

set_option maxHeartbeats 1600000 in
theorem drawElements_no_geometry_filter (env : DrawEnv) (mode : Nat)
    (h : env.primitiveTypeOK = false) :
    (drawElements env mode).2.filter isDeviceCall = [] ∧
    Step.draw ∉ (drawElements env mode).2 := by
  simp only [drawElements, h, Bool.not_false]
  cases hsw : env.generateSwizzlesResult.isError <;> simp [hsw, isDeviceCall]

set_option maxHeartbeats 1600000 in
theorem drawArrays_no_geometry_result (env : DrawEnv) (mode : Nat)
    (h : env.primitiveTypeOK = false)
    (hsw : env.generateSwizzlesResult.isError = false) :
    (drawArrays env mode).1 = noError := by
  simp only [drawArrays, h, hsw, Bool.not_false]
  simp

set_option maxHeartbeats 1600000 in
theorem drawElements_no_geometry_result (env : DrawEnv) (mode : Nat)
    (h : env.primitiveTypeOK = false)
    (hsw : env.generateSwizzlesResult.isError = false) :
    (drawElements env mode).1 = noError := by
  simp only [drawElements, h, hsw, Bool.not_false]
  simp

/-- C5 (amended): when the primitive mode/count combination produces no
geometry, both draw entry points apply zero device state changes and issue no
backend draw, and — provided the swizzle-generation pre-pass (which the code
runs before the primitive-type check) did not fail — return success. -/
theorem no_geometry_draw_succeeds_without_device_calls (env : DrawEnv) (mode : Nat)
    (h : env.primitiveTypeOK = false) :
    ((drawArrays env mode).2.filter isDeviceCall = [] ∧
     Step.draw ∉ (drawArrays env mode).2 ∧
     (env.generateSwizzlesResult.isError = false → (drawArrays env mode).1 = noError)) ∧
    ((drawElements env mode).2.filter isDeviceCall = [] ∧
     Step.draw ∉ (drawElements env mode).2 ∧
     (env.generateSwizzlesResult.isError = false → (drawElements env mode).1 = noError)) :=
  ⟨⟨(drawArrays_no_geometry_filter env mode h).1,
    (drawArrays_no_geometry_filter env mode h).2,
    fun hsw => drawArrays_no_geometry_result env mode h hsw⟩,
   ⟨(drawElements_no_geometry_filter env mode h).1,
    (drawElements_no_geometry_filter env mode h).2,
    fun hsw => drawElements_no_geometry_result env mode h hsw⟩⟩

/-- Witness for C5's amendment: a no-geometry call with healthy collaborators
succeeds with no device calls. -/
theorem no_geometry_draw_succeeds_witness :
    (drawArrays noGeometryEnv GL_TRIANGLES).1 = noError ∧
    (drawArrays noGeometryEnv GL_TRIANGLES).2.filter isDeviceCall = [] := by
  have hall := no_geometry_draw_succeeds_without_device_calls noGeometryEnv GL_TRIANGLES rfl
  exact ⟨hall.1.2.2 rfl, hall.1.1⟩

/-- C5 (counterexample): a call whose primitive produces no geometry does not
always return success — `generateSwizzles` runs before the primitive-type
check, and its failure is returned to the caller. -/
theorem no_geometry_call_can_still_fail :
    noGeometrySwizzleFailureEnv.primitiveTypeOK = false ∧
    (drawArrays noGeometrySwizzleFailureEnv GL_TRIANGLES).1.isError = true ∧
    (drawElements noGeometrySwizzleFailureEnv GL_TRIANGLES).1.isError = true :=
  ⟨rfl, rfl, rfl⟩

/-! ### C9: point rendering without a point-size write -/

theorem skipDraw_points (usesPointSize cullFace : Bool) (cullMode : Nat)
    (h : usesPointSize = false) :
    skipDraw usesPointSize cullFace cullMode GL_POINTS = true := by
  simp [skipDraw, h]

set_option maxHeartbeats 1600000 in
theorem drawArrays_no_draw_of_skip (env : DrawEnv) (mode : Nat)
    (hskip : skipDraw env.usesPointSize env.cullFace env.cullMode mode = true) :
    Step.draw ∉ (drawArrays env mode).2 := by
  simp only [drawArrays, hskip]
  split_ifs <;> simp

set_option maxHeartbeats 1600000 in
theorem drawElements_no_draw_of_skip (env : DrawEnv) (mode : Nat)
    (hskip : skipDraw env.usesPointSize env.cullFace env.cullMode mode = true) :
    Step.draw ∉ (drawElements env mode).2 := by
  simp only [drawElements, hskip]
  split_ifs <;> simp

set_option maxHeartbeats 1600000 in
theorem drawArrays_success_of_skip (env : DrawEnv) (mode : Nat)
    (hnone : firstFailureArrays env = none)
    (hskip : skipDraw env.usesPointSize env.cullFace env.cullMode mode = true) :
    (drawArrays env mode).1 = noError := by
  simp only [firstFailureArrays] at hnone
  simp only [drawArrays, hskip]
  split_ifs at hnone ⊢ <;> simp_all

set_option maxHeartbeats 1600000 in
theorem drawElements_success_of_skip (env : DrawEnv) (mode : Nat)
    (hnone : firstFailureElements env = none)
    (hskip : skipDraw env.usesPointSize env.cullFace env.cullMode mode = true) :
    (drawElements env mode).1 = noError := by
  simp only [firstFailureElements] at hnone
  simp only [drawElements, hskip]
  split_ifs at hnone ⊢ <;> simp_all

/-- C9: for a points draw whose program does not write point size, the
draw-skip heuristic says skip, no backend draw is issued by either entry
point, and (when no pre-draw step failed) the call returns success rather
than an error. -/
theorem points_without_point_size_skips_draw (env : DrawEnv)
    (h : env.usesPointSize = false) :
    skipDraw env.usesPointSize env.cullFace env.cullMode GL_POINTS = true ∧
    Step.draw ∉ (drawArrays env GL_POINTS).2 ∧
    Step.draw ∉ (drawElements env GL_POINTS).2 ∧
    (firstFailureArrays env = none → (drawArrays env GL_POINTS).1 = noError) ∧
    (firstFailureElements env = none → (drawElements env GL_POINTS).1 = noError) := by
  have hskip := skipDraw_points env.usesPointSize env.cullFace env.cullMode h
  exact ⟨hskip,
    drawArrays_no_draw_of_skip env GL_POINTS hskip,
    drawElements_no_draw_of_skip env GL_POINTS hskip,
    fun hnone => drawArrays_success_of_skip env GL_POINTS hnone hskip,
    fun hnone => drawElements_success_of_skip env GL_POINTS hnone hskip⟩

/-- Witness for C9 on a concrete environment. -/
theorem points_without_point_size_skips_draw_witness :
    Step.draw ∉ (drawArrays noPointSizeEnv GL_POINTS).2 ∧
    (drawArrays noPointSizeEnv GL_POINTS).1 = noError := by
  have hall := points_without_point_size_skips_draw noPointSizeEnv rfl
  exact ⟨hall.2.1, hall.2.2.2.1 rfl⟩

/-! ### C7: first-failure short-circuiting -/

set_option maxHeartbeats 1600000 in
theorem drawArrays_first_failure (env : DrawEnv) (mode : Nat) (s : Step) (e : Error)
    (h : firstFailureArrays env = some (s, e)) :
    (drawArrays env mode).1 = e ∧ Step.draw ∉ (drawArrays env mode).2 ∧
    ∀ t ∈ (drawArrays env mode).2, stepOrder t ≤ stepOrder s := by
  simp only [firstFailureArrays] at h
  simp only [drawArrays]
  by_cases h1 : env.generateSwizzlesResult.isError = true
  · rw [if_pos h1] at h
    rw [if_pos h1]
    injection h with hp
    injection hp with hs he
    subst hs
    subst he
    exact ⟨rfl, by simp, by simp [stepOrder]⟩
  rw [if_neg h1] at h
  rw [if_neg h1]
  by_cases h2 : (!env.primitiveTypeOK) = true
  · rw [if_pos h2] at h
    exact absurd h (by simp)
  rw [if_neg h2] at h
  rw [if_neg h2]
  by_cases h3 : env.applyRenderTargetResult.isError = true
  · rw [if_pos h3] at h
    rw [if_pos h3]
    injection h with hp
    injection hp with hs he
    subst hs
    subst he
    exact ⟨rfl, by simp, by simp [stepOrder]⟩
  rw [if_neg h3] at h
  rw [if_neg h3]
  by_cases h4 : env.applyStateResult.isError = true
  · rw [if_pos h4] at h
    rw [if_pos h4]
    injection h with hp
    injection hp with hs he
    subst hs
    subst he
    exact ⟨rfl, by simp, by simp [stepOrder]⟩
  rw [if_neg h4] at h
  rw [if_neg h4]
  by_cases h5 : env.applyVertexBufferResult.isError = true
  · rw [if_pos h5] at h
    rw [if_pos h5]
    injection h with hp
    injection hp with hs he
    subst hs
    subst he
    exact ⟨rfl, by simp, by simp [stepOrder]⟩
  rw [if_neg h5] at h
  rw [if_neg h5]
  by_cases h6 : env.applyShadersResult.isError = true
  · rw [if_pos h6] at h
    rw [if_pos h6]
    injection h with hp
    injection hp with hs he
    subst hs
    subst he
    refine ⟨rfl, ?_, ?_⟩ <;> (split <;> simp [stepOrder])
  rw [if_neg h6] at h
  rw [if_neg h6]
  by_cases h7 : env.applyTexturesResult.isError = true
  · rw [if_pos h7] at h
    rw [if_pos h7]
    injection h with hp
    injection hp with hs he
    subst hs
    subst he
    refine ⟨rfl, ?_, ?_⟩ <;> (split <;> simp [stepOrder])
  rw [if_neg h7] at h
  rw [if_neg h7]
  by_cases h8 : (applyUniformBuffers env).isError = true
  · rw [if_pos h8] at h
    rw [if_pos h8]
    injection h with hp
    injection hp with hs he
    subst hs
    subst he
    refine ⟨rfl, ?_, ?_⟩ <;> (split <;> simp [stepOrder])
  rw [if_neg h8] at h
  exact absurd h (by simp)

set_option maxHeartbeats 1600000 in
theorem drawElements_first_failure (env : DrawEnv) (mode : Nat) (s : Step) (e : Error)
    (h : firstFailureElements env = some (s, e)) :
    (drawElements env mode).1 = e ∧ Step.draw ∉ (drawElements env mode).2 ∧
    ∀ t ∈ (drawElements env mode).2, stepOrder t ≤ stepOrder s := by
  simp only [firstFailureElements] at h
  simp only [drawElements]
  by_cases h1 : env.generateSwizzlesResult.isError = true
  · rw [if_pos h1] at h
    rw [if_pos h1]
    injection h with hp
    injection hp with hs he
    subst hs
    subst he
    exact ⟨rfl, by simp, by simp [stepOrder]⟩
  rw [if_neg h1] at h
  rw [if_neg h1]
  by_cases h2 : (!env.primitiveTypeOK) = true
  · rw [if_pos h2] at h
    exact absurd h (by simp)
  rw [if_neg h2] at h
  rw [if_neg h2]
  by_cases h3 : env.applyRenderTargetResult.isError = true
  · rw [if_pos h3] at h
    rw [if_pos h3]
    injection h with hp
    injection hp with hs he
    subst hs
    subst he
    exact ⟨rfl, by simp, by simp [stepOrder]⟩
  rw [if_neg h3] at h
  rw [if_neg h3]
  by_cases h4 : env.applyStateResult.isError = true
  · rw [if_pos h4] at h
    rw [if_pos h4]
    injection h with hp
    injection hp with hs he
    subst hs
    subst he
    exact ⟨rfl, by simp, by simp [stepOrder]⟩
  rw [if_neg h4] at h
  rw [if_neg h4]
  by_cases hib : env.applyIndexBufferResult.isError = true
  · rw [if_pos hib] at h
    rw [if_pos hib]
    injection h with hp
    injection hp with hs he
    subst hs
    subst he
    exact ⟨rfl, by simp, by simp [stepOrder]⟩
  rw [if_neg hib] at h
  rw [if_neg hib]
  by_cases h5 : env.applyVertexBufferResult.isError = true
  · rw [if_pos h5] at h
    rw [if_pos h5]
    injection h with hp
    injection hp with hs he
    subst hs
    subst he
    exact ⟨rfl, by simp, by simp [stepOrder]⟩
  rw [if_neg h5] at h
  rw [if_neg h5]
  by_cases h6 : env.applyShadersResult.isError = true
  · rw [if_pos h6] at h
    rw [if_pos h6]
    injection h with hp
    injection hp with hs he
    subst hs
    subst he
    refine ⟨rfl, ?_, ?_⟩ <;> (split <;> simp [stepOrder])
  rw [if_neg h6] at h
  rw [if_neg h6]
  by_cases h7 : env.applyTexturesResult.isError = true
  · rw [if_pos h7] at h
    rw [if_pos h7]
    injection h with hp
    injection hp with hs he
    subst hs
    subst he
    refine ⟨rfl, ?_, ?_⟩ <;> (split <;> simp [stepOrder])
  rw [if_neg h7] at h
  rw [if_neg h7]
  by_cases h8 : (applyUniformBuffers env).isError = true
  · rw [if_pos h8] at h
    rw [if_pos h8]
    injection h with hp
    injection hp with hs he
    subst hs
    subst he
    refine ⟨rfl, ?_, ?_⟩ <;> (split <;> simp [stepOrder])
  rw [if_neg h8] at h
  exact absurd h (by simp)

/-- C7: when a pre-draw pipeline step fails, both entry points return exactly
the first failing step's error, issue no backend draw, and invoke no pipeline
step that comes after the failing one in the sequencing order. -/
theorem first_failure_propagates_verbatim (env : DrawEnv) (mode : Nat) (s : Step)
    (e : Error) :
    (firstFailureArrays env = some (s, e) →
      (drawArrays env mode).1 = e ∧ Step.draw ∉ (drawArrays env mode).2 ∧
      ∀ t ∈ (drawArrays env mode).2, stepOrder t ≤ stepOrder s) ∧
    (firstFailureElements env = some (s, e) →
      (drawElements env mode).1 = e ∧ Step.draw ∉ (drawElements env mode).2 ∧
      ∀ t ∈ (drawElements env mode).2, stepOrder t ≤ stepOrder s) :=
  ⟨drawArrays_first_failure env mode s e, drawElements_first_failure env mode s e⟩

/-- Witness for C7: a failing fixed-function state application aborts the
call with that exact error and without drawing. -/
theorem first_failure_propagates_verbatim_witness :
    (drawArrays stateFailureEnv GL_TRIANGLES).1 = { code := GL_OUT_OF_MEMORY } ∧
    Step.draw ∉ (drawArrays stateFailureEnv GL_TRIANGLES).2 := by
  have happ := (first_failure_propagates_verbatim stateFailureEnv GL_TRIANGLES
    Step.applyState { code := GL_OUT_OF_MEMORY }).1 rfl
  exact ⟨happ.1, happ.2.1⟩

/-! ### C6: the framebuffer texture serial set -/

/-- C6 (amended): the serial array built by
`getBoundFramebufferTextureSerials` is sorted non-decreasing and is a
permutation of the collected attachment serials (so membership testing
against it is exact); it is not deduplicated. -/
theorem framebuffer_serials_sorted (fb : FramebufferView) :
    List.Sorted (· ≤ ·) (getBoundFramebufferTextureSerials fb) ∧
    (getBoundFramebufferTextureSerials fb).Perm (attachmentSerials fb) ∧
    ∀ x : Nat, x ∈ getBoundFramebufferTextureSerials fb ↔ x ∈ attachmentSerials fb := by
  refine ⟨List.sorted_insertionSort _ _, List.perm_insertionSort _ _, fun x => ?_⟩
  exact (List.perm_insertionSort _ _).mem_iff

/-- C6 (counterexample): with the same texture attached at two color
attachment points the array contains its serial twice — it is neither
duplicate-free nor strictly sorted. -/
theorem framebuffer_serials_not_unique :
    getBoundFramebufferTextureSerials duplicateAttachmentFramebuffer = [5, 5] ∧
    ¬ (getBoundFramebufferTextureSerials duplicateAttachmentFramebuffer).Nodup ∧
    ¬ List.Sorted (· < ·) (getBoundFramebufferTextureSerials duplicateAttachmentFramebuffer) := by
  have he : getBoundFramebufferTextureSerials duplicateAttachmentFramebuffer = [5, 5] := by
    decide
  refine ⟨he, ?_, ?_⟩
  · rw [he]
    decide
  · rw [he]
    decide

/-! ### C2: feedback-loop-aware texture binding -/

theorem resolveSamplerBinding_placeholder (pb : ProgramBinaryView) (st : GLStateView)
    (shaderType : SamplerType) (serials : List Nat) (samplerIndex : Nat)
    (hmapped : pb.samplerMapping shaderType samplerIndex ≠ -1)
    (hserial : serials.contains
      (st.samplerTexture (pb.samplerMapping shaderType samplerIndex)
        (pb.samplerTextureType shaderType samplerIndex)).textureSerial = true) :
    resolveSamplerBinding pb st shaderType serials samplerIndex =
      BoundTexture.placeholder (pb.samplerTextureType shaderType samplerIndex) := by
  simp only [resolveSamplerBinding, if_pos hmapped, hserial]
  simp

/-- C2: if the texture resolved for a used, mapped sampler slot has its
serial in the framebuffer texture serial set, `applyTextures` binds the
incomplete-texture placeholder for the slot's target kind to that slot, and
never the texture itself — regardless of sampler completeness. -/
theorem framebuffer_attached_texture_binds_placeholder
    (pb : ProgramBinaryView) (st : GLStateView) (fb : FramebufferView)
    (shaderType : SamplerType) (samplerCount samplerIndex : Nat)
    (hrange : samplerIndex < pb.usedSamplerRange shaderType)
    (hmapped : pb.samplerMapping shaderType samplerIndex ≠ -1)
    (hserial : (getBoundFramebufferTextureSerials fb).contains
      (st.samplerTexture (pb.samplerMapping shaderType samplerIndex)
        (pb.samplerTextureType shaderType samplerIndex)).textureSerial = true) :
    (samplerIndex,
      BoundTexture.placeholder (pb.samplerTextureType shaderType samplerIndex))
      ∈ applyTextures pb st shaderType (getBoundFramebufferTextureSerials fb) samplerCount ∧
    ∀ serial : Nat,
      (samplerIndex, BoundTexture.real serial)
        ∉ applyTextures pb st shaderType (getBoundFramebufferTextureSerials fb) samplerCount := by
  have hres := resolveSamplerBinding_placeholder pb st shaderType
    (getBoundFramebufferTextureSerials fb) samplerIndex hmapped hserial
  constructor
  · apply List.mem_append_left
    apply List.mem_map.mpr
    exact ⟨samplerIndex, List.mem_range.mpr hrange, by rw [hres]⟩
  · intro serial hmem
    rcases List.mem_append.mp hmem with hleft | hright
    · obtain ⟨j, _, hj⟩ := List.mem_map.mp hleft
      obtain ⟨hj1, hj2⟩ := Prod.mk.injEq .. ▸ hj
      rw [hj1] at hj2
      rw [hres] at hj2
      cases hj2
    · obtain ⟨j, _, hj⟩ := List.mem_map.mp hright
      obtain ⟨hj1, hj2⟩ := Prod.mk.injEq .. ▸ hj
      cases hj2

/-- Witness for C2: the texture with serial 5 is both the single framebuffer
attachment and the resolved sampler texture; it is sampler-complete, yet the
placeholder is bound. -/
theorem framebuffer_attached_texture_binds_placeholder_witness :
    (0, BoundTexture.placeholder GL_TEXTURE_2D)
      ∈ applyTextures feedbackProgramBinary feedbackGLState SamplerType.pixel
          (getBoundFramebufferTextureSerials feedbackFramebuffer) 2 ∧
    feedbackTexture.isSamplerComplete feedbackTexture.samplerState = true := by
  have h := framebuffer_attached_texture_binds_placeholder feedbackProgramBinary
    feedbackGLState feedbackFramebuffer SamplerType.pixel 2 0 (by decide) (by decide)
    (by decide)
  exact ⟨h.1, rfl⟩

/-! ### C8: the incomplete-texture cache -/

theorem cacheFind_append_some {l : List (Nat × Nat)} {ty v : Nat}
    (h : cacheFind l ty = some v) (m : List (Nat × Nat)) :
    cacheFind (l ++ m) ty = some v := by
  induction l with
  | nil => cases h
  | cons p rest ih =>
    obtain ⟨k, w⟩ := p
    by_cases hk : k = ty
    · simp only [cacheFind, if_pos hk] at h ⊢
      exact h
    · simp only [cacheFind, if_neg hk] at h ⊢
      exact ih h

theorem cacheFind_append_none {l : List (Nat × Nat)} {ty : Nat}
    (h : cacheFind l ty = none) (m : List (Nat × Nat)) :
    cacheFind (l ++ m) ty = cacheFind m ty := by
  induction l with
  | nil => rfl
  | cons p rest ih =>
    obtain ⟨k, w⟩ := p
    by_cases hk : k = ty
    · simp only [cacheFind, if_pos hk] at h
      exact absurd h (by simp)
    · simp only [cacheFind, if_neg hk] at h ⊢
      exact ih h

theorem cacheFind_mem {l : List (Nat × Nat)} {ty v : Nat}
    (h : cacheFind l ty = some v) : (ty, v) ∈ l := by
  induction l with
  | nil => cases h
  | cons p rest ih =>
    obtain ⟨k, w⟩ := p
    by_cases hk : k = ty
    · simp only [cacheFind, if_pos hk] at h
      injection h with h
      subst hk
      subst h
      exact List.mem_cons_self _ _
    · simp only [cacheFind, if_neg hk] at h
      exact List.mem_cons_of_mem _ (ih h)

theorem cacheFind_none_not_mem {l : List (Nat × Nat)} {ty : Nat}
    (h : cacheFind l ty = none) : ty ∉ l.map Prod.fst := by
  induction l with
  | nil => simp
  | cons p rest ih =>
    obtain ⟨k, w⟩ := p
    by_cases hk : k = ty
    · simp only [cacheFind, if_pos hk] at h
      exact absurd h (by simp)
    · simp only [cacheFind, if_neg hk] at h
      simp only [List.map_cons, List.mem_cons]
      rintro (rfl | hmem)
      · exact hk rfl
      · exact ih h hmem

theorem getIncompleteTexture_find (c : TextureCache) (ty : Nat) :
    cacheFind (getIncompleteTexture c ty).2.entries ty =
      some (getIncompleteTexture c ty).1 := by
  unfold getIncompleteTexture
  cases hf : cacheFind c.entries ty with
  | some t => simp [hf]
  | none =>
    simp only [hf]
    rw [cacheFind_append_none hf]
    simp [cacheFind]

theorem getIncompleteTexture_of_find {c : TextureCache} {ty v : Nat}
    (h : cacheFind c.entries ty = some v) : getIncompleteTexture c ty = (v, c) := by
  unfold getIncompleteTexture
  rw [h]

theorem getIncompleteTexture_mono {c : TextureCache} {ty v : Nat}
    (h : cacheFind c.entries ty = some v) (ty2 : Nat) :
    cacheFind (getIncompleteTexture c ty2).2.entries ty = some v := by
  unfold getIncompleteTexture
  cases hf : cacheFind c.entries ty2 with
  | some t =>
    simp only [hf]
    exact h
  | none =>
    simp only [hf]
    exact cacheFind_append_some h _

theorem runGetIncompleteTextures_mono :
    ∀ (l : List Nat) {c : TextureCache} {ty v : Nat},
      cacheFind c.entries ty = some v →
      cacheFind (runGetIncompleteTextures c l).entries ty = some v := by
  intro l
  induction l with
  | nil => intro c ty v h; exact h
  | cons a rest ih =>
    intro c ty v h
    exact ih (getIncompleteTexture_mono h a)

theorem cacheWF_empty : CacheWF emptyTextureCache :=
  ⟨by simp [emptyTextureCache], by simp [emptyTextureCache], by simp [emptyTextureCache]⟩

theorem cacheWF_get {c : TextureCache} (h : CacheWF c) (ty : Nat) :
    CacheWF (getIncompleteTexture c ty).2 := by
  unfold getIncompleteTexture
  cases hf : cacheFind c.entries ty with
  | some t =>
    simp only [hf]
    exact h
  | none =>
    simp only [hf]
    refine ⟨?_, ?_, ?_⟩
    · simp only [List.map_append, List.map_cons, List.map_nil]
      rw [List.nodup_append]
      refine ⟨h.keysNodup, List.nodup_singleton _, ?_⟩
      intro x hx hx2
      simp only [List.mem_singleton] at hx2
      subst hx2
      exact cacheFind_none_not_mem hf hx
    · simp only [List.map_append, List.map_cons, List.map_nil]
      rw [List.nodup_append]
      refine ⟨h.idsNodup, List.nodup_singleton _, ?_⟩
      intro x hx hx2
      simp only [List.mem_singleton] at hx2
      subst hx2
      obtain ⟨p, hp, hp2⟩ := List.mem_map.mp hx
      have := h.idsLt p hp
      omega
    · intro p hp
      rcases List.mem_append.mp hp with hl | hr
      · have := h.idsLt p hl
        show p.2 < c.nextTextureId + 1
        omega
      · simp only [List.mem_singleton] at hr
        subst hr
        show c.nextTextureId < c.nextTextureId + 1
        omega

theorem cacheWF_runGets :
    ∀ (l : List Nat) {c : TextureCache}, CacheWF c →
      CacheWF (runGetIncompleteTextures c l) := by
  intro l
  induction l with
  | nil => intro c h; exact h
  | cons a rest ih =>
    intro c h
    exact ih (cacheWF_get h a)

theorem distinct_ids_of_wf {c : TextureCache} (h : CacheWF c) {k1 v1 k2 v2 : Nat}
    (h1 : (k1, v1) ∈ c.entries) (h2 : (k2, v2) ∈ c.entries) (hk : k1 ≠ k2) :
    v1 ≠ v2 := by
  intro hv
  subst hv
  have := List.inj_on_of_nodup_map h.idsNodup h1 h2 rfl
  exact hk (congrArg Prod.fst this)

/-- C8: for every pipeline lifetime (every sequence of lookups starting from
the empty cache): a later lookup of the same target kind returns the same
placeholder instance even with arbitrary lookups in between; lookups of two
distinct kinds return distinct placeholder instances; and the cache never
holds more than one placeholder per target kind. -/
theorem incomplete_texture_cache_coherent (l l2 : List Nat) (ty ty2 : Nat)
    (hne : ty ≠ ty2) :
    (getIncompleteTexture
        (runGetIncompleteTextures
          (getIncompleteTexture (runGetIncompleteTextures emptyTextureCache l) ty).2 l2)
        ty).1 =
      (getIncompleteTexture (runGetIncompleteTextures emptyTextureCache l) ty).1 ∧
    (getIncompleteTexture (runGetIncompleteTextures emptyTextureCache l) ty).1 ≠
      (getIncompleteTexture
        (getIncompleteTexture (runGetIncompleteTextures emptyTextureCache l) ty).2 ty2).1 ∧
    ((runGetIncompleteTextures emptyTextureCache l).entries.map Prod.fst).Nodup := by
  have hwf : CacheWF (runGetIncompleteTextures emptyTextureCache l) :=
    cacheWF_runGets l cacheWF_empty
  have hfind1 := getIncompleteTexture_find (runGetIncompleteTextures emptyTextureCache l) ty
  have hwf1 : CacheWF (getIncompleteTexture (runGetIncompleteTextures emptyTextureCache l) ty).2 :=
    cacheWF_get hwf ty
  refine ⟨?_, ?_, hwf.keysNodup⟩
  · have hlater := runGetIncompleteTextures_mono l2 hfind1
    rw [getIncompleteTexture_of_find hlater]
  · set c1 := (getIncompleteTexture (runGetIncompleteTextures emptyTextureCache l) ty).2 with hc1
    cases hf2 : cacheFind c1.entries ty2 with
    | some t2 =>
      rw [getIncompleteTexture_of_find hf2]
      exact distinct_ids_of_wf hwf1 (cacheFind_mem hfind1) (cacheFind_mem hf2) hne
    | none =>
      have hlt : (getIncompleteTexture (runGetIncompleteTextures emptyTextureCache l) ty).1 <
          c1.nextTextureId :=
        hwf1.idsLt _ (cacheFind_mem hfind1)
      have hfst : (getIncompleteTexture c1 ty2).1 = c1.nextTextureId := by
        unfold getIncompleteTexture
        rw [hf2]
      rw [hfst]
      omega

/-- Witness for C8 with the 2D and cube-map target kinds. -/
theorem incomplete_texture_cache_coherent_witness :
    (getIncompleteTexture
        (runGetIncompleteTextures
          (getIncompleteTexture
            (runGetIncompleteTextures emptyTextureCache [GL_TEXTURE_2D]) GL_TEXTURE_2D).2
          [GL_TEXTURE_CUBE_MAP])
        GL_TEXTURE_2D).1 =
      (getIncompleteTexture
        (runGetIncompleteTextures emptyTextureCache [GL_TEXTURE_2D]) GL_TEXTURE_2D).1 ∧
    (getIncompleteTexture
        (runGetIncompleteTextures emptyTextureCache [GL_TEXTURE_2D]) GL_TEXTURE_2D).1 ≠
      (getIncompleteTexture
        (getIncompleteTexture
          (runGetIncompleteTextures emptyTextureCache [GL_TEXTURE_2D]) GL_TEXTURE_2D).2
        GL_TEXTURE_CUBE_MAP).1 := by
  have h := incomplete_texture_cache_coherent [GL_TEXTURE_2D] [GL_TEXTURE_CUBE_MAP]
    GL_TEXTURE_2D GL_TEXTURE_CUBE_MAP (by decide)
  exact ⟨h.1, h.2.1⟩

end RendererD3D
